import Mathlib

/-!
Verification of the Foodgram backend (Savva17/foodgram).

Shallow embedding of `src/backend`: the relational state (Django models of
`recipes/models.py` and `users/models.py`) becomes a `DB` record of row
lists, and each HTTP handler of `api/v1/views.py` becomes a Lean function
from a `DB` (plus the acting user and the request payload) to an HTTP
status code, an optional payload, and the successor `DB`.
-/

namespace Foodgram

/-- Model of `users.models.CustomUser`: only the fields the verified
handlers read (`id`, `username`). -/
structure CustomUser where
  id : Nat
  username : String
deriving DecidableEq

/-- Model of `recipes.models.Tag` (`id`, `name`, `slug`). -/
structure Tag where
  id : Nat
  name : String
  slug : String
deriving DecidableEq

/-- Model of `recipes.models.Ingredient` (`id`, `name`, `measurement_unit`). -/
structure Ingredient where
  id : Nat
  name : String
  measurement_unit : String
deriving DecidableEq

/-- Model of `recipes.models.Recipe`: the scalar columns the verified
handlers read.  `cooking_time` is a PositiveSmallIntegerField, hence `Nat`. -/
structure Recipe where
  id : Nat
  name : String
  text : String
  cooking_time : Nat
  author : Nat
  image : String
deriving DecidableEq

/-- Model of `recipes.models.RecipeTag`: the (recipe, tag) link table. -/
structure RecipeTag where
  recipe : Nat
  tag : Nat
deriving DecidableEq

/-- Model of `recipes.models.RecipeIngredient`: (recipe, ingredient, amount);
`amount` is a PositiveIntegerField, hence `Nat`. -/
structure RecipeIngredient where
  recipe : Nat
  ingredient : Nat
  amount : Nat
deriving DecidableEq

/-- Model of `recipes.models.Favorite` as used by
`RecipeViewSet.add_delete_recipe_in_favorite` (fields `author`, `recipe`).
The model class itself is one of the merged duplicates absent from `src/`
(only `FavouriteRecipe` is present); its two foreign-key columns are taken
from the view code that filters and creates it. -/
structure Favorite where
  author : Nat
  recipe : Nat
deriving DecidableEq

/-- Model of `recipes.models.ShoppingList` (via `BaseFavouriteAndShopping`):
the (user, recipe) shopping-cart row. -/
structure ShoppingItem where
  user : Nat
  recipe : Nat
deriving DecidableEq

/-- Model of `recipes.models.Follow` as used by `UserViewSet.subscribe`
(fields `follower`, `author`); the duplicate `users.models.Subscription`
carries the same pair as (`user`, `following`). -/
structure Follow where
  follower : Nat
  author : Nat
deriving DecidableEq

/-- Model of `recipes.models.ShortLinkRecipe` as used by
`RecipeViewSet.get_short_link_recipe`: a one-to-one (recipe, short_link)
row.  The model class is absent from `src/`; its columns are taken from the
view code and the spec's data-model table. -/
structure ShortLinkRecipe where
  recipe : Nat
  short_link : String
deriving DecidableEq

/-- The relational state: one list of rows per model table, plus the
auto-increment counter for recipe primary keys. -/
structure DB where
  users : List CustomUser
  tags : List Tag
  ingredients : List Ingredient
  recipes : List Recipe
  recipeTags : List RecipeTag
  recipeIngredients : List RecipeIngredient
  favorites : List Favorite
  shoppingList : List ShoppingItem
  follows : List Follow
  shortLinks : List ShortLinkRecipe
  nextRecipeId : Nat
deriving DecidableEq

/-- Resolves `item.user.username`: the username of the user row with the
given primary key (foreign keys always resolve in the live database). -/
def usernameOf (db : DB) (uid : Nat) : String :=
  ((db.users.find? (fun u => u.id = uid)).map (fun u => u.username)).getD ""

/-- Resolves `item.recipe.name`. -/
def recipeNameOf (db : DB) (rid : Nat) : String :=
  ((db.recipes.find? (fun r => r.id = rid)).map (fun r => r.name)).getD ""

/-- Model of `RecipeViewSet.download_csv` (views.py 377-392): the rows the
CSV writer emits for `GET /recipes/download_shopping_cart/`.  A header row
`['User', 'Recipe']` is written first, then, looping over
`ShoppingList.objects.filter(user=request.user)`, one row
`[item.user.username, item.recipe.name]` per cart entry. -/
def download_csv (db : DB) (uid : Nat) : List (List String) :=
  (db.shoppingList.filter (fun it => it.user = uid)).foldl
    (fun rows it => rows ++ [[usernameOf db it.user, recipeNameOf db it.recipe]])
    [["User", "Recipe"]]

/-- Spec-side aggregation (§4.3 of the spec, for comparison only): the total
amount of the ingredient with the given (name, unit) pair summed across all
recipes in the user's shopping cart. -/
def cartIngredientTotal (db : DB) (uid : Nat) (nm unit : String) : Nat :=
  (db.recipeIngredients.filter (fun ri =>
    (db.shoppingList.any (fun it => it.user = uid ∧ it.recipe = ri.recipe)) ∧
    (db.ingredients.any (fun i =>
      i.id = ri.ingredient ∧ i.name = nm ∧ i.measurement_unit = unit)))).foldl
    (fun acc ri => acc + ri.amount) 0

/-- Concrete database: one user whose cart holds two recipes that share the
ingredient `flour` (g), with amounts 2 and 3. -/
def dbC1 : DB :=
  { users := [⟨1, "u1"⟩]
    tags := []
    ingredients := [⟨1, "flour", "g"⟩]
    recipes := [⟨1, "r1", "t1", 10, 1, "img"⟩, ⟨2, "r2", "t2", 20, 1, "img"⟩]
    recipeTags := []
    recipeIngredients := [⟨1, 1, 2⟩, ⟨2, 1, 3⟩]
    favorites := []
    shoppingList := [⟨1, 1⟩, ⟨1, 2⟩]
    follows := []
    shortLinks := []
    nextRecipeId := 3 }

/-- Concrete database whose only recipe has no short-link row. -/
def dbC2 : DB :=
  { users := [⟨1, "u1"⟩]
    tags := []
    ingredients := []
    recipes := [⟨1, "r1", "t1", 10, 1, "img"⟩]
    recipeTags := []
    recipeIngredients := []
    favorites := []
    shoppingList := []
    follows := []
    shortLinks := []
    nextRecipeId := 2 }

/-- Variant of `dbC2` whose recipe does have a short-link row. -/
def dbC2b : DB :=
  { dbC2 with shortLinks := [⟨1, "abc"⟩] }

/-- Concrete database for exercising the toggle endpoints: two users, two
recipes, one favorite, one cart entry and one follow already present. -/
def db0 : DB :=
  { users := [⟨1, "a"⟩, ⟨2, "b"⟩]
    tags := []
    ingredients := []
    recipes := [⟨1, "r1", "t1", 10, 1, "img"⟩, ⟨2, "r2", "t2", 20, 2, "img"⟩]
    recipeTags := []
    recipeIngredients := []
    favorites := [⟨1, 1⟩]
    shoppingList := [⟨1, 1⟩]
    follows := [⟨1, 2⟩]
    shortLinks := []
    nextRecipeId := 3 }

/-- Model of `RecipeViewSet.get_short_link_recipe` (views.py 282-298),
`GET /recipes/{id}/get-link/`: look the recipe up (404 when absent), then
look its `ShortLinkRecipe` row up (404 when absent); on success return the
stored token with 200.  The handler performs no database writes, so the
state component is the input state. -/
def get_short_link_recipe (db : DB) (pk : Nat) : Nat × Option String × DB :=
  if db.recipes.any (fun r => r.id = pk) then
    match db.shortLinks.find? (fun l => l.recipe = pk) with
    | some l => (200, some l.short_link, db)
    | none => (404, none, db)
  else (404, none, db)

/-- Model of `RecipeViewSet.add_delete_recipe_in_favorite`, POST branch
(views.py 300-321): 404 when the recipe is absent, 400 when the
(author, recipe) pair already exists, otherwise create it and return 201. -/
def favorite_post (db : DB) (uid pk : Nat) : Nat × DB :=
  if db.recipes.any (fun r => r.id = pk) then
    if db.favorites.any (fun f => f.author = uid ∧ f.recipe = pk) then (400, db)
    else (201, { db with favorites := db.favorites ++ [⟨uid, pk⟩] })
  else (404, db)

/-- Model of `RecipeViewSet.add_delete_recipe_in_favorite`, DELETE branch
(views.py 323-335): 400 when the pair is absent, otherwise delete the
matching rows and return 204. -/
def favorite_delete (db : DB) (uid pk : Nat) : Nat × DB :=
  if db.recipes.any (fun r => r.id = pk) then
    if db.favorites.any (fun f => f.author = uid ∧ f.recipe = pk) then
      (204, { db with favorites :=
        db.favorites.filter (fun f => ¬(f.author = uid ∧ f.recipe = pk)) })
    else (400, db)
  else (404, db)

/-- Model of `RecipeViewSet.add_delete_recipe_for_shopping_list`, POST
branch (views.py 337-361). -/
def shopping_cart_post (db : DB) (uid pk : Nat) : Nat × DB :=
  if db.recipes.any (fun r => r.id = pk) then
    if db.shoppingList.any (fun s => s.user = uid ∧ s.recipe = pk) then (400, db)
    else (201, { db with shoppingList := db.shoppingList ++ [⟨uid, pk⟩] })
  else (404, db)

/-- Model of `RecipeViewSet.add_delete_recipe_for_shopping_list`, DELETE
branch (views.py 363-375). -/
def shopping_cart_delete (db : DB) (uid pk : Nat) : Nat × DB :=
  if db.recipes.any (fun r => r.id = pk) then
    if db.shoppingList.any (fun s => s.user = uid ∧ s.recipe = pk) then
      (204, { db with shoppingList :=
        db.shoppingList.filter (fun s => ¬(s.user = uid ∧ s.recipe = pk)) })
    else (400, db)
  else (404, db)

/-- Model of `UserViewSet.subscribe`, POST branch (views.py 86-107):
404 when the target user is absent (`get_object_or_404`), 400 on
self-subscription, 400 when the (follower, author) pair already exists,
otherwise create it and return 201. -/
def subscribe_post (db : DB) (uid pk : Nat) : Nat × DB :=
  if db.users.any (fun x => x.id = pk) then
    if uid = pk then (400, db)
    else if db.follows.any (fun f => f.follower = uid ∧ f.author = pk) then (400, db)
    else (201, { db with follows := db.follows ++ [⟨uid, pk⟩] })
  else (404, db)

/-- Model of `UserViewSet.subscribe`, DELETE branch (views.py 109-120). -/
def subscribe_delete (db : DB) (uid pk : Nat) : Nat × DB :=
  if db.users.any (fun x => x.id = pk) then
    if db.follows.any (fun f => f.follower = uid ∧ f.author = pk) then
      (204, { db with follows :=
        db.follows.filter (fun f => ¬(f.follower = uid ∧ f.author = pk)) })
    else (400, db)
  else (404, db)

/-- Model of `RecipeViewSet.destroy` (views.py 203-209) together with the
`on_delete=CASCADE` declarations of `RecipeTag`, `RecipeIngredient` and
`BaseFavouriteAndShopping` (recipes/models.py 212-308) and the one-to-one
short-link row: a non-author gets 403 and nothing changes; the author's
delete removes the recipe row and every dependent row referencing it. -/
def destroy_recipe (db : DB) (uid pk : Nat) : Nat × DB :=
  match db.recipes.find? (fun r => r.id = pk) with
  | none => (404, db)
  | some r =>
    if r.author ≠ uid then (403, db)
    else (204, { db with
      recipes := db.recipes.filter (fun x => ¬ x.id = pk)
      recipeTags := db.recipeTags.filter (fun x => ¬ x.recipe = pk)
      recipeIngredients := db.recipeIngredients.filter (fun x => ¬ x.recipe = pk)
      favorites := db.favorites.filter (fun x => ¬ x.recipe = pk)
      shoppingList := db.shoppingList.filter (fun x => ¬ x.recipe = pk)
      shortLinks := db.shortLinks.filter (fun x => ¬ x.recipe = pk) })

/-- Resolves `tag.slug` for a `RecipeTag` row's tag foreign key. -/
def tagSlug (db : DB) (tid : Nat) : String :=
  ((db.tags.find? (fun t => t.id = tid)).map (fun t => t.slug)).getD ""

/-- Model of the tag branch of `RecipeViewSet.get_queryset`
(views.py 198-201): `getlist('tags')` yields the slug list; when it is
non-empty the queryset becomes
`queryset.filter(tags__slug__in=tags).distinct()` — an SQL join that emits
one copy of the recipe per matching tag link, then de-duplicates. -/
def get_queryset_tags (db : DB) (slugs : List String) : List Recipe :=
  if slugs.isEmpty then db.recipes
  else
    (db.recipes.flatMap (fun r =>
      (db.recipeTags.filter (fun l => l.recipe = r.id ∧ tagSlug db l.tag ∈ slugs)).map
        (fun _ => r))).dedup

/-- Modelled from the spec: `recipes/config.py` is absent from `src/`; the
spec's data-model table fixes `cooking_time ≥ 1`, so the constant passed to
`MinValueValidator` on `Recipe.cooking_time` is 1. -/
def MIN_COOKING_TIME : Nat := 1

/-- Modelled from the spec: `recipes/config.py` is absent from `src/`; the
spec's data-model table fixes `amount ≥ 1`, so the constant passed to
`MinValueValidator` on `RecipeIngredient.amount` is 1. -/
def MIN_AMOUNT_SUM : Nat := 1

/-- One entry of the `ingredients` list of a recipe payload, as accepted by
`CreateRecipeIngredientSerializer` (`id` referencing an `Ingredient`, plus
`amount`). -/
structure IngredientEntry where
  id : Nat
  amount : Nat
deriving DecidableEq

/-- A recipe create/update payload, with the fields of
`CreateRecipeSerializer.Meta.fields`. -/
structure RecipeRequest where
  ingredients : List IngredientEntry
  tags : List Nat
  image : String
  name : String
  text : String
  cooking_time : Nat
deriving DecidableEq

/-- Field-level validation of `CreateRecipeSerializer` (DRF
`to_internal_value`): `PrimaryKeyRelatedField` existence checks for the
ingredient ids and the tag ids, the model-inherited
`MinValueValidator(MIN_AMOUNT_SUM)` on `amount` (the serializer's own
`validate_amount` forgets to raise its error, so the model validator is the
only effective bound), `validate_image` rejecting an empty image, and the
model-inherited `MinValueValidator(MIN_COOKING_TIME)` on `cooking_time`.
Each failing field contributes a (field, message) pair. -/
def field_errors (db : DB) (req : RecipeRequest) : List (String × String) :=
  (if req.ingredients.any (fun e => !(db.ingredients.any (fun i => i.id = e.id)))
    then [("ingredients", "object does not exist")] else []) ++
  (if req.ingredients.any (fun e => e.amount < MIN_AMOUNT_SUM)
    then [("ingredients", "amount below minimum")] else []) ++
  (if req.tags.any (fun t => !(db.tags.any (fun tg => tg.id = t)))
    then [("tags", "object does not exist")] else []) ++
  (if req.image = "" then [("image", "may not be empty")] else []) ++
  (if req.cooking_time < MIN_COOKING_TIME
    then [("cooking_time", "below minimum")] else [])

/-- Model of `CreateRecipeSerializer.validate` (serializers.py 354-384):
missing/empty `tags`, then missing/empty `ingredients`, then duplicate
ingredient ids (`len(set(ids)) != len(ingredients)`), then duplicate tags.
The two unreachable re-checks of emptiness in the source are elided. -/
def serializer_validate (req : RecipeRequest) : Option (String × String) :=
  if req.tags = [] then some ("non_field_errors", "tags field is required")
  else if req.ingredients = [] then
    some ("non_field_errors", "ingredients field is required")
  else if (req.ingredients.map (fun e => e.id)).dedup.length ≠
      req.ingredients.length then
    some ("non_field_errors", "ingredients must be unique")
  else if req.tags.dedup.length ≠ req.tags.length then
    some ("non_field_errors", "tags must be unique")
  else none

/-- DRF `is_valid`: field validation first; only when every field parses is
the object-level `validate` run. -/
def run_validation (db : DB) (req : RecipeRequest) : Option (String × String) :=
  match field_errors db req with
  | [] => serializer_validate req
  | e :: _ => some e

/-- The conjunction of every condition `run_validation` enforces, stated
propositionally (used to express "a request with all fields valid"). -/
def validReq (db : DB) (req : RecipeRequest) : Prop :=
  req.ingredients ≠ [] ∧
  (req.ingredients.map (fun e => e.id)).Nodup ∧
  (∀ e ∈ req.ingredients, db.ingredients.any (fun i => i.id = e.id) = true) ∧
  (∀ e ∈ req.ingredients, MIN_AMOUNT_SUM ≤ e.amount) ∧
  req.tags ≠ [] ∧
  req.tags.Nodup ∧
  (∀ t ∈ req.tags, db.tags.any (fun tg => tg.id = t) = true) ∧
  req.image ≠ "" ∧
  MIN_COOKING_TIME ≤ req.cooking_time

instance (db : DB) (req : RecipeRequest) : Decidable (validReq db req) := by
  unfold validReq
  infer_instance

/-- Model of `RecipeViewSet.perform_create` plus
`CreateRecipeSerializer.create` (serializers.py 405-411): on valid input,
insert the recipe row (author = the requesting user, fresh primary key),
bulk-create its `RecipeIngredient` rows and set its tags. -/
def create_recipe (db : DB) (uid : Nat) (req : RecipeRequest) : Nat × DB :=
  match run_validation db req with
  | some _ => (400, db)
  | none =>
    let rid := db.nextRecipeId
    (201, { db with
      recipes := db.recipes ++
        [⟨rid, req.name, req.text, req.cooking_time, uid, req.image⟩]
      recipeIngredients := db.recipeIngredients ++
        req.ingredients.map (fun e => ⟨rid, e.id, e.amount⟩)
      recipeTags := db.recipeTags ++ req.tags.map (fun t => ⟨rid, t⟩)
      nextRecipeId := db.nextRecipeId + 1 })

/-- Model of `CreateRecipeSerializer.update` (serializers.py 413-423):
delete every `RecipeTag` and `RecipeIngredient` row of the instance,
re-create them from the payload (`tags.set`, `add_ingredients`), and update
the scalar columns. -/
def apply_recipe_update (db : DB) (pk : Nat) (req : RecipeRequest) : DB :=
  { db with
    recipes := db.recipes.map (fun x =>
      if x.id = pk then
        { x with name := req.name, text := req.text,
                 cooking_time := req.cooking_time, image := req.image }
      else x)
    recipeTags := db.recipeTags.filter (fun l => ¬ l.recipe = pk) ++
      req.tags.map (fun t => ⟨pk, t⟩)
    recipeIngredients :=
      db.recipeIngredients.filter (fun l => ¬ l.recipe = pk) ++
      req.ingredients.map (fun e => ⟨pk, e.id, e.amount⟩) }

/-- Model of `RecipeViewSet.update` (views.py 211-228), the `PUT` handler.
`check_object_permissions` consults `IsAuthorOrReadOnly`
(`api/v1/permissions.py`, absent from `src/`), modelled from the spec:
"Authorization failures (non-author mutating a recipe) surface as 403", so
mutation by a non-author is denied with 403.  The view then rejects an
explicitly empty ingredient list and defers the rest to the serializer.
(The source's top-level `amount` branch concerns a key no recipe payload
carries and is not modelled.) -/
def update_recipe (db : DB) (uid pk : Nat) (req : RecipeRequest) : Nat × DB :=
  match db.recipes.find? (fun r => r.id = pk) with
  | none => (404, db)
  | some r =>
    if r.author ≠ uid then (403, db)
    else if req.ingredients = [] then (400, db)
    else match run_validation db req with
      | some _ => (400, db)
      | none => (200, apply_recipe_update db pk req)

/-- Model of the `PATCH` handler (views.py 230-277): after the modelled
`IsAuthorOrReadOnly` object check, the view itself rejects an empty
ingredient list, a mismatch between the requested ingredient ids and the
existing `Ingredient` rows (`count() == len(ids)`), an empty tag list and
duplicate tags, then runs the serializer and applies
`CreateRecipeSerializer.update`.  (The two `in request.data` presence
checks always pass for the payload shape modelled here.) -/
def patch_recipe (db : DB) (uid pk : Nat) (req : RecipeRequest) : Nat × DB :=
  match db.recipes.find? (fun r => r.id = pk) with
  | none => (404, db)
  | some r =>
    if r.author ≠ uid then (403, db)
    else if req.ingredients = [] then (400, db)
    else if (db.ingredients.filter (fun i =>
        (req.ingredients.map (fun e => e.id)).contains i.id)).length ≠
        req.ingredients.length then (400, db)
    else if req.tags = [] then (400, db)
    else if req.tags.dedup.length ≠ req.tags.length then (400, db)
    else match run_validation db req with
      | some _ => (400, db)
      | none => (200, apply_recipe_update db pk req)

/-- One public mutating operation of the API surface, as a transition
relation on database states. -/
inductive Step : DB → DB → Prop
  | signup (db : DB) (u : CustomUser) :
      Step db { db with users := db.users ++ [u] }
  | createRecipe (db : DB) (uid : Nat) (req : RecipeRequest) :
      Step db (create_recipe db uid req).2
  | updateRecipe (db : DB) (uid pk : Nat) (req : RecipeRequest) :
      Step db (update_recipe db uid pk req).2
  | patchRecipe (db : DB) (uid pk : Nat) (req : RecipeRequest) :
      Step db (patch_recipe db uid pk req).2
  | destroyRecipe (db : DB) (uid pk : Nat) :
      Step db (destroy_recipe db uid pk).2
  | favPost (db : DB) (uid pk : Nat) : Step db (favorite_post db uid pk).2
  | favDelete (db : DB) (uid pk : Nat) : Step db (favorite_delete db uid pk).2
  | cartPost (db : DB) (uid pk : Nat) :
      Step db (shopping_cart_post db uid pk).2
  | cartDelete (db : DB) (uid pk : Nat) :
      Step db (shopping_cart_delete db uid pk).2
  | subPost (db : DB) (uid pk : Nat) : Step db (subscribe_post db uid pk).2
  | subDelete (db : DB) (uid pk : Nat) :
      Step db (subscribe_delete db uid pk).2

/-- A fresh deployment: registered users and admin-seeded reference data,
but no recipes and no relation rows. -/
def initDB (users : List CustomUser) (tags : List Tag)
    (ingredients : List Ingredient) : DB :=
  ⟨users, tags, ingredients, [], [], [], [], [], [], [], 0⟩

/-- States reachable from a fresh deployment via the public operations. -/
inductive Reachable : DB → Prop
  | init (users : List CustomUser) (tags : List Tag)
      (ingredients : List Ingredient) : Reachable (initDB users tags ingredients)
  | step {db db' : DB} : Reachable db → Step db db' → Reachable db'

/-- Executable form of the no-self-follow invariant enforced by
`Subscription.Meta`'s `prevent_self_follow` check constraint
(users/models.py 125-138). -/
def noSelfFollow (db : DB) : Bool :=
  db.follows.all (fun f => f.follower != f.author)

/-- Database for exercising recipe validation and updates: reference tags
and ingredients, plus one recipe of user 1 with one tag link and one
ingredient link. -/
def dbV : DB :=
  { users := [⟨1, "a"⟩, ⟨2, "b"⟩]
    tags := [⟨1, "Lunch", "lunch"⟩, ⟨2, "Dinner", "dinner"⟩]
    ingredients := [⟨1, "flour", "g"⟩, ⟨2, "sugar", "g"⟩]
    recipes := [⟨1, "r1", "t1", 10, 1, "img"⟩]
    recipeTags := [⟨1, 1⟩]
    recipeIngredients := [⟨1, 1, 2⟩]
    favorites := []
    shoppingList := []
    follows := []
    shortLinks := []
    nextRecipeId := 2 }

/-- A payload passing every validation check against `dbV`. -/
def reqOk : RecipeRequest := ⟨[⟨2, 3⟩], [2], "img2", "r1b", "t1b", 15⟩

/-- A payload whose ingredient list is empty. -/
def reqEmptyIng : RecipeRequest := ⟨[], [1], "img", "n", "t", 5⟩

/-- A payload mentioning ingredient 1 twice. -/
def reqDupIng : RecipeRequest := ⟨[⟨1, 2⟩, ⟨1, 3⟩], [1], "img", "n", "t", 5⟩

/-- A payload mentioning tag 1 twice. -/
def reqDupTag : RecipeRequest := ⟨[⟨1, 2⟩], [1, 1], "img", "n", "t", 5⟩

/-- Database for exercising the tag filter: recipe 1 is tagged lunch and
dinner, recipe 2 breakfast, recipe 3 untagged. -/
def dbC6 : DB :=
  { users := [⟨1, "a"⟩]
    tags := [⟨1, "Lunch", "lunch"⟩, ⟨2, "Dinner", "dinner"⟩,
             ⟨3, "Breakfast", "breakfast"⟩]
    ingredients := []
    recipes := [⟨1, "r1", "t1", 10, 1, "img"⟩, ⟨2, "r2", "t2", 20, 1, "img"⟩,
                ⟨3, "r3", "t3", 30, 1, "img"⟩]
    recipeTags := [⟨1, 1⟩, ⟨1, 2⟩, ⟨2, 3⟩]
    recipeIngredients := []
    favorites := []
    shoppingList := []
    follows := []
    shortLinks := []
    nextRecipeId := 4 }

end Foodgram

namespace Foodgram

/-- Emitting one row per element via a left fold is append-then-map. -/
theorem foldl_emit {α β : Type} (l : List α) (f : α → β) (acc : List β) :
    l.foldl (fun rows a => rows ++ [f a]) acc = acc ++ l.map f := by
  induction l generalizing acc with
  | nil => simp
  | cons a l ih => simp [List.foldl_cons, ih]

end Foodgram

/-- Claim C1, counterexample: in `dbC1` the user's cart contains flour twice
(total 5), yet the downloaded file is exactly a header plus one
(username, recipe-name) row per cart entry — no row mentions the ingredient
`flour` at all, so the file does not contain one aggregated row per
(ingredient name, unit) pair. -/
theorem C1_counterexample :
    Foodgram.cartIngredientTotal Foodgram.dbC1 1 "flour" "g" = 5 ∧
    Foodgram.download_csv Foodgram.dbC1 1 =
      [["User", "Recipe"], ["u1", "r1"], ["u1", "r2"]] ∧
    ∀ row ∈ Foodgram.download_csv Foodgram.dbC1 1, "flour" ∉ row := by
  refine ⟨by decide, by decide, ?_⟩
  decide

/-- Claim C1 as amended: the shopping-list download emits the header row
`["User", "Recipe"]` followed by one row per shopping-cart entry of the
requesting user, each holding that entry's username and recipe name, in
cart order; it performs no ingredient aggregation.  A pair row occurs in
the output iff it is the header or corresponds to a cart entry of the
user. -/
theorem C1_download_rows (db : Foodgram.DB) (uid : Nat) :
    Foodgram.download_csv db uid =
      ["User", "Recipe"] ::
        (db.shoppingList.filter (fun it => it.user = uid)).map
          (fun it => [Foodgram.usernameOf db it.user,
                      Foodgram.recipeNameOf db it.recipe]) ∧
    ∀ un rn : String,
      [un, rn] ∈ Foodgram.download_csv db uid ↔
        (un = "User" ∧ rn = "Recipe") ∨
        ∃ it ∈ db.shoppingList, it.user = uid ∧
          un = Foodgram.usernameOf db it.user ∧
          rn = Foodgram.recipeNameOf db it.recipe := by
  have hrows : Foodgram.download_csv db uid =
      ["User", "Recipe"] ::
        (db.shoppingList.filter (fun it => it.user = uid)).map
          (fun it => [Foodgram.usernameOf db it.user,
                      Foodgram.recipeNameOf db it.recipe]) := by
    unfold Foodgram.download_csv
    rw [Foodgram.foldl_emit]
    rfl
  refine ⟨hrows, fun un rn => ?_⟩
  rw [hrows]
  constructor
  · intro h
    rcases List.mem_cons.mp h with h | h
    · left
      injection h with h1 h2
      injection h2 with h2 h3
      exact ⟨h1, h2⟩
    · right
      rcases List.mem_map.mp h with ⟨it, hit, heq⟩
      rcases List.mem_filter.mp hit with ⟨hmem, huser⟩
      injection heq with h1 h2
      injection h2 with h2 h3
      exact ⟨it, hmem, by simpa using huser, h1.symm, h2.symm⟩
  · intro h
    rcases h with ⟨h1, h2⟩ | ⟨it, hmem, huser, h1, h2⟩
    · subst h1; subst h2; exact List.mem_cons_self _ _
    · subst h1; subst h2
      exact List.mem_cons_of_mem _ (List.mem_map.mpr
        ⟨it, List.mem_filter.mpr ⟨hmem, by simpa using huser⟩, rfl⟩)

/-- Claim C2, counterexample: in `dbC2` recipe 1 exists but has no
short-link row; the first `get-link` call returns 404 with no token and
leaves the database unchanged — it does not lazily assign a token, so the
call sequence the claim describes does not happen. -/
theorem C2_counterexample :
    Foodgram.dbC2.recipes.any (fun r => r.id = 1) = true ∧
    Foodgram.dbC2.shortLinks = [] ∧
    Foodgram.get_short_link_recipe Foodgram.dbC2 1 = (404, none, Foodgram.dbC2) := by
  refine ⟨by decide, by decide, ?_⟩
  rfl

/-- Claim C2 as amended: `get-link` never allocates — it performs no
writes (the state is unchanged), a repeated call returns the same result,
a recipe whose short-link row exists gets 200 with exactly the stored
token, and a recipe without one gets 404 with no token. -/
theorem C2_get_link (db : Foodgram.DB) (pk : Nat) :
    (Foodgram.get_short_link_recipe db pk).2.2 = db ∧
    Foodgram.get_short_link_recipe (Foodgram.get_short_link_recipe db pk).2.2 pk =
      Foodgram.get_short_link_recipe db pk ∧
    (∀ l : Foodgram.ShortLinkRecipe,
      db.shortLinks.find? (fun x => x.recipe = pk) = some l →
      db.recipes.any (fun r => r.id = pk) = true →
      Foodgram.get_short_link_recipe db pk = (200, some l.short_link, db)) ∧
    (db.shortLinks.find? (fun x => x.recipe = pk) = none →
      (Foodgram.get_short_link_recipe db pk).1 = 404 ∧
      (Foodgram.get_short_link_recipe db pk).2.1 = none) := by
  unfold Foodgram.get_short_link_recipe
  by_cases hr : db.recipes.any (fun r => r.id = pk)
  · cases hf : db.shortLinks.find? (fun l => l.recipe = pk) with
    | some l => simp [hr, hf]
    | none => simp [hr, hf]
  · simp only [hr]
    cases hf : db.shortLinks.find? (fun l => l.recipe = pk) with
    | some l => simp [hr, hf]
    | none => simp [hr, hf]

/-- Witness for C2_get_link: concrete instances of each conjunct — with a
stored token the call returns it with 200; without one it returns 404. -/
theorem C2_get_link_witness :
    Foodgram.get_short_link_recipe Foodgram.dbC2b 1 =
      (200, some "abc", Foodgram.dbC2b) ∧
    (Foodgram.get_short_link_recipe Foodgram.dbC2 1).1 = 404 ∧
    (Foodgram.get_short_link_recipe Foodgram.dbC2 1).2.1 = none := by
  refine ⟨?_, ?_⟩
  · exact (C2_get_link Foodgram.dbC2b 1).2.2.1 ⟨1, "abc"⟩ (by decide) (by decide)
  · exact (C2_get_link Foodgram.dbC2 1).2.2.2 (by decide)

/-- Claim C3: for each toggle relation (favorite, shopping-cart, follow),
POST on an existing pair is 400 with the state unchanged, POST on a fresh
pair creates exactly that pair with 201, DELETE on a missing pair is 400
with the state unchanged, and DELETE on an existing pair removes exactly
the matching rows with 204. -/
theorem C3_toggle_contract (db : Foodgram.DB) (u pk : Nat) :
    (db.recipes.any (fun r => r.id = pk) = true →
      (db.favorites.any (fun f => f.author = u ∧ f.recipe = pk) = true →
        Foodgram.favorite_post db u pk = (400, db)) ∧
      (db.favorites.any (fun f => f.author = u ∧ f.recipe = pk) = false →
        Foodgram.favorite_post db u pk =
          (201, { db with favorites := db.favorites ++ [⟨u, pk⟩] })) ∧
      (db.favorites.any (fun f => f.author = u ∧ f.recipe = pk) = false →
        Foodgram.favorite_delete db u pk = (400, db)) ∧
      (db.favorites.any (fun f => f.author = u ∧ f.recipe = pk) = true →
        Foodgram.favorite_delete db u pk =
          (204, { db with favorites :=
            db.favorites.filter (fun f => ¬(f.author = u ∧ f.recipe = pk)) }))) ∧
    (db.recipes.any (fun r => r.id = pk) = true →
      (db.shoppingList.any (fun s => s.user = u ∧ s.recipe = pk) = true →
        Foodgram.shopping_cart_post db u pk = (400, db)) ∧
      (db.shoppingList.any (fun s => s.user = u ∧ s.recipe = pk) = false →
        Foodgram.shopping_cart_post db u pk =
          (201, { db with shoppingList := db.shoppingList ++ [⟨u, pk⟩] })) ∧
      (db.shoppingList.any (fun s => s.user = u ∧ s.recipe = pk) = false →
        Foodgram.shopping_cart_delete db u pk = (400, db)) ∧
      (db.shoppingList.any (fun s => s.user = u ∧ s.recipe = pk) = true →
        Foodgram.shopping_cart_delete db u pk =
          (204, { db with shoppingList :=
            db.shoppingList.filter (fun s => ¬(s.user = u ∧ s.recipe = pk)) }))) ∧
    (db.users.any (fun x => x.id = pk) = true →
      (db.follows.any (fun f => f.follower = u ∧ f.author = pk) = true →
        Foodgram.subscribe_post db u pk = (400, db)) ∧
      (u ≠ pk →
        db.follows.any (fun f => f.follower = u ∧ f.author = pk) = false →
        Foodgram.subscribe_post db u pk =
          (201, { db with follows := db.follows ++ [⟨u, pk⟩] })) ∧
      (db.follows.any (fun f => f.follower = u ∧ f.author = pk) = false →
        Foodgram.subscribe_delete db u pk = (400, db)) ∧
      (db.follows.any (fun f => f.follower = u ∧ f.author = pk) = true →
        Foodgram.subscribe_delete db u pk =
          (204, { db with follows :=
            db.follows.filter (fun f => ¬(f.follower = u ∧ f.author = pk)) }))) := by
  refine ⟨fun hr => ⟨?_, ?_, ?_, ?_⟩, fun hr => ⟨?_, ?_, ?_, ?_⟩,
          fun hu => ⟨?_, ?_, ?_, ?_⟩⟩
  · intro h
    unfold Foodgram.favorite_post
    rw [if_pos hr, if_pos h]
  · intro h
    unfold Foodgram.favorite_post
    rw [if_pos hr, if_neg (by simp only [h]; decide)]
  · intro h
    unfold Foodgram.favorite_delete
    rw [if_pos hr, if_neg (by simp only [h]; decide)]
  · intro h
    unfold Foodgram.favorite_delete
    rw [if_pos hr, if_pos h]
  · intro h
    unfold Foodgram.shopping_cart_post
    rw [if_pos hr, if_pos h]
  · intro h
    unfold Foodgram.shopping_cart_post
    rw [if_pos hr, if_neg (by simp only [h]; decide)]
  · intro h
    unfold Foodgram.shopping_cart_delete
    rw [if_pos hr, if_neg (by simp only [h]; decide)]
  · intro h
    unfold Foodgram.shopping_cart_delete
    rw [if_pos hr, if_pos h]
  · intro h
    unfold Foodgram.subscribe_post
    by_cases hself : u = pk
    · rw [if_pos hu, if_pos hself]
    · rw [if_pos hu, if_neg hself, if_pos h]
  · intro hself h
    unfold Foodgram.subscribe_post
    rw [if_pos hu, if_neg hself, if_neg (by simp only [h]; decide)]
  · intro h
    unfold Foodgram.subscribe_delete
    rw [if_pos hu, if_neg (by simp only [h]; decide)]
  · intro h
    unfold Foodgram.subscribe_delete
    rw [if_pos hu, if_pos h]

/-- Witness for C3_toggle_contract: each of the twelve cases observed on
the concrete database `db0`. -/
theorem C3_toggle_contract_witness :
    Foodgram.favorite_post Foodgram.db0 1 1 = (400, Foodgram.db0) ∧
    Foodgram.favorite_post Foodgram.db0 1 2 =
      (201, { Foodgram.db0 with
        favorites := Foodgram.db0.favorites ++ [⟨1, 2⟩] }) ∧
    Foodgram.favorite_delete Foodgram.db0 1 2 = (400, Foodgram.db0) ∧
    Foodgram.favorite_delete Foodgram.db0 1 1 =
      (204, { Foodgram.db0 with
        favorites := Foodgram.db0.favorites.filter
          (fun f => ¬(f.author = 1 ∧ f.recipe = 1)) }) ∧
    Foodgram.shopping_cart_post Foodgram.db0 1 1 = (400, Foodgram.db0) ∧
    Foodgram.shopping_cart_post Foodgram.db0 1 2 =
      (201, { Foodgram.db0 with
        shoppingList := Foodgram.db0.shoppingList ++ [⟨1, 2⟩] }) ∧
    Foodgram.shopping_cart_delete Foodgram.db0 1 2 = (400, Foodgram.db0) ∧
    Foodgram.shopping_cart_delete Foodgram.db0 1 1 =
      (204, { Foodgram.db0 with
        shoppingList := Foodgram.db0.shoppingList.filter
          (fun s => ¬(s.user = 1 ∧ s.recipe = 1)) }) ∧
    Foodgram.subscribe_post Foodgram.db0 1 2 = (400, Foodgram.db0) ∧
    Foodgram.subscribe_post Foodgram.db0 2 1 =
      (201, { Foodgram.db0 with
        follows := Foodgram.db0.follows ++ [⟨2, 1⟩] }) ∧
    Foodgram.subscribe_delete Foodgram.db0 2 1 = (400, Foodgram.db0) ∧
    Foodgram.subscribe_delete Foodgram.db0 1 2 =
      (204, { Foodgram.db0 with
        follows := Foodgram.db0.follows.filter
          (fun f => ¬(f.follower = 1 ∧ f.author = 2)) }) :=
  ⟨((C3_toggle_contract Foodgram.db0 1 1).1 (by decide)).1 (by decide),
   ((C3_toggle_contract Foodgram.db0 1 2).1 (by decide)).2.1 (by decide),
   ((C3_toggle_contract Foodgram.db0 1 2).1 (by decide)).2.2.1 (by decide),
   ((C3_toggle_contract Foodgram.db0 1 1).1 (by decide)).2.2.2 (by decide),
   ((C3_toggle_contract Foodgram.db0 1 1).2.1 (by decide)).1 (by decide),
   ((C3_toggle_contract Foodgram.db0 1 2).2.1 (by decide)).2.1 (by decide),
   ((C3_toggle_contract Foodgram.db0 1 2).2.1 (by decide)).2.2.1 (by decide),
   ((C3_toggle_contract Foodgram.db0 1 1).2.1 (by decide)).2.2.2 (by decide),
   ((C3_toggle_contract Foodgram.db0 1 2).2.2 (by decide)).1 (by decide),
   ((C3_toggle_contract Foodgram.db0 2 1).2.2 (by decide)).2.1
     (by decide) (by decide),
   ((C3_toggle_contract Foodgram.db0 2 1).2.2 (by decide)).2.2.1 (by decide),
   ((C3_toggle_contract Foodgram.db0 1 2).2.2 (by decide)).2.2.2 (by decide)⟩

/-- Filtering away the rows whose key equals `pk` leaves no row with that
key, stated in executable `List.all` form. -/
theorem all_ne_of_filter_ne {α : Type} (l : List α) (p : α → Nat) (pk : Nat) :
    ((l.filter (fun x => ¬ p x = pk)).all (fun x => p x ≠ pk)) = true := by
  rw [List.all_eq_true]
  intro x hx
  have := (List.mem_filter.mp hx).2
  simpa using this

/-- Claim C4: a successful recipe deletion (status 204) leaves no
ingredient-link, tag-link, favorite or shopping-list row referencing the
deleted recipe, and removes the recipe row itself. -/
theorem C4_destroy_cascade (db : Foodgram.DB) (uid pk : Nat)
    (h : (Foodgram.destroy_recipe db uid pk).1 = 204) :
    ((Foodgram.destroy_recipe db uid pk).2.recipeIngredients.all
      (fun x => x.recipe ≠ pk)) = true ∧
    ((Foodgram.destroy_recipe db uid pk).2.recipeTags.all
      (fun x => x.recipe ≠ pk)) = true ∧
    ((Foodgram.destroy_recipe db uid pk).2.favorites.all
      (fun x => x.recipe ≠ pk)) = true ∧
    ((Foodgram.destroy_recipe db uid pk).2.shoppingList.all
      (fun x => x.recipe ≠ pk)) = true ∧
    ((Foodgram.destroy_recipe db uid pk).2.recipes.all
      (fun x => x.id ≠ pk)) = true := by
  unfold Foodgram.destroy_recipe at h ⊢
  cases hf : db.recipes.find? (fun r => r.id = pk) with
  | none =>
    rw [hf] at h
    simp at h
  | some r =>
    rw [hf] at h
    by_cases hauth : r.author ≠ uid
    · simp [hauth] at h
    · simp only [hauth, if_false, ite_false]
      refine ⟨?_, ?_, ?_, ?_, ?_⟩ <;>
        simp [List.all_eq_true, List.mem_filter]

/-- Witness for C4_destroy_cascade: user 1 deletes their recipe 1 in `db0`;
no dependent row referencing recipe 1 survives. -/
theorem C4_destroy_cascade_witness :
    ((Foodgram.destroy_recipe Foodgram.db0 1 1).2.recipeIngredients.all
      (fun x => x.recipe ≠ 1)) = true ∧
    ((Foodgram.destroy_recipe Foodgram.db0 1 1).2.recipeTags.all
      (fun x => x.recipe ≠ 1)) = true ∧
    ((Foodgram.destroy_recipe Foodgram.db0 1 1).2.favorites.all
      (fun x => x.recipe ≠ 1)) = true ∧
    ((Foodgram.destroy_recipe Foodgram.db0 1 1).2.shoppingList.all
      (fun x => x.recipe ≠ 1)) = true ∧
    ((Foodgram.destroy_recipe Foodgram.db0 1 1).2.recipes.all
      (fun x => x.id ≠ 1)) = true :=
  C4_destroy_cascade Foodgram.db0 1 1 (by decide)

/-- Claim C6: for a non-empty slug list, the tag filter of
`RecipeViewSet.get_queryset` returns exactly the recipes carrying at least
one tag whose slug is listed, and the `distinct()` step makes each such
recipe appear exactly once. -/
theorem C6_tag_filter (db : Foodgram.DB) (slugs : List String)
    (h : slugs ≠ []) :
    (∀ r : Foodgram.Recipe,
      r ∈ Foodgram.get_queryset_tags db slugs ↔
        r ∈ db.recipes ∧ ∃ l ∈ db.recipeTags,
          l.recipe = r.id ∧ Foodgram.tagSlug db l.tag ∈ slugs) ∧
    (Foodgram.get_queryset_tags db slugs).Nodup := by
  unfold Foodgram.get_queryset_tags
  rw [if_neg (by simp [List.isEmpty_iff, h])]
  constructor
  · intro r
    rw [List.mem_dedup, List.mem_flatMap]
    constructor
    · rintro ⟨a, ha, hr⟩
      rcases List.mem_map.mp hr with ⟨l, hl, heq⟩
      rcases List.mem_filter.mp hl with ⟨hlm, hcond⟩
      subst heq
      exact ⟨ha, l, hlm, by simpa using hcond⟩
    · rintro ⟨hr, l, hl, hc1, hc2⟩
      exact ⟨r, hr, List.mem_map.mpr
        ⟨l, List.mem_filter.mpr ⟨hl, by simp [hc1, hc2]⟩, rfl⟩⟩
  · exact List.nodup_dedup _

open Foodgram

/-- Witness for C6_tag_filter: on `dbC6` with slugs lunch and dinner,
recipe 1 (tagged with both) is in the result, which has no duplicates. -/
theorem C6_tag_filter_witness :
    (⟨1, "r1", "t1", 10, 1, "img"⟩ : Recipe) ∈
      get_queryset_tags dbC6 ["lunch", "dinner"] ∧
    (get_queryset_tags dbC6 ["lunch", "dinner"]).Nodup :=
  ⟨((C6_tag_filter dbC6 ["lunch", "dinner"] (by decide)).1 _).mpr (by decide),
   (C6_tag_filter dbC6 ["lunch", "dinner"] (by decide)).2⟩

/-- A singleton-or-empty conditional is empty exactly when the condition
fails. -/
theorem ite_singleton_eq_nil {α : Type} {c : Prop} [Decidable c] (x : α) :
    ((if c then [x] else []) = []) ↔ ¬ c := by
  by_cases h : c <;> simp [h]

/-- A list has no duplicates exactly when de-duplication keeps its length. -/
theorem dedup_length_eq_iff {α : Type} [DecidableEq α] (l : List α) :
    l.dedup.length = l.length ↔ l.Nodup := by
  constructor
  · intro h
    have hs : l.dedup.Sublist l := List.dedup_sublist l
    rw [← hs.eq_of_length h]
    exact List.nodup_dedup l
  · intro h
    rw [List.dedup_eq_self.mpr h]

/-- Characterization of an empty field-error map. -/
theorem field_errors_eq_nil (db : DB) (req : RecipeRequest) :
    field_errors db req = [] ↔
      ((∀ e ∈ req.ingredients,
          db.ingredients.any (fun i => i.id = e.id) = true) ∧
       (∀ e ∈ req.ingredients, MIN_AMOUNT_SUM ≤ e.amount) ∧
       (∀ t ∈ req.tags, db.tags.any (fun tg => tg.id = t) = true) ∧
       req.image ≠ "" ∧
       MIN_COOKING_TIME ≤ req.cooking_time) := by
  unfold field_errors
  simp only [List.append_eq_nil, ite_singleton_eq_nil]
  simp [List.any_eq_true, Nat.not_lt, not_or]
  tauto

/-- Characterization of object-level validation success. -/
theorem serializer_validate_eq_none (req : RecipeRequest) :
    serializer_validate req = none ↔
      (req.tags ≠ [] ∧ req.ingredients ≠ [] ∧
       (req.ingredients.map (fun e => e.id)).Nodup ∧ req.tags.Nodup) := by
  unfold serializer_validate
  have h3l : (req.ingredients.map (fun e => e.id)).dedup.length =
      req.ingredients.length ↔ (req.ingredients.map (fun e => e.id)).Nodup := by
    have := dedup_length_eq_iff (req.ingredients.map (fun e => e.id))
    rwa [List.length_map] at this
  have h4l := dedup_length_eq_iff req.tags
  by_cases h1 : req.tags = [] <;>
  by_cases h2 : req.ingredients = [] <;>
  by_cases h3 : (req.ingredients.map (fun e => e.id)).Nodup <;>
  by_cases h4 : req.tags.Nodup <;>
    simp [h1, h2, h3, h4, h3l, h4l]

/-- `is_valid` succeeds exactly on requests satisfying every validation
condition. -/
theorem run_validation_none_iff (db : DB) (req : RecipeRequest) :
    run_validation db req = none ↔ validReq db req := by
  unfold run_validation
  cases hfe : field_errors db req with
  | nil =>
    show serializer_validate req = none ↔ validReq db req
    rw [serializer_validate_eq_none]
    have hf := (field_errors_eq_nil db req).mp hfe
    unfold validReq
    tauto
  | cons e es =>
    show some e = none ↔ validReq db req
    constructor
    · intro h; cases h
    · intro hv
      obtain ⟨v1, v2, v3, v4, v5, v6, v7, v8, v9⟩ := hv
      have : field_errors db req = [] :=
        (field_errors_eq_nil db req).mpr ⟨v3, v4, v7, v8, v9⟩
      rw [hfe] at this
      cases this

/-- Recipe creation never touches the follow table. -/
theorem create_recipe_follows (db : DB) (uid : Nat) (req : RecipeRequest) :
    (create_recipe db uid req).2.follows = db.follows := by
  unfold create_recipe
  cases run_validation db req <;> rfl

/-- The PUT update never touches the follow table. -/
theorem update_recipe_follows (db : DB) (uid pk : Nat) (req : RecipeRequest) :
    (update_recipe db uid pk req).2.follows = db.follows := by
  unfold update_recipe
  repeat' split
  all_goals rfl

/-- The PATCH update never touches the follow table. -/
theorem patch_recipe_follows (db : DB) (uid pk : Nat) (req : RecipeRequest) :
    (patch_recipe db uid pk req).2.follows = db.follows := by
  unfold patch_recipe
  repeat' split
  all_goals rfl

/-- Recipe deletion never touches the follow table. -/
theorem destroy_recipe_follows (db : DB) (uid pk : Nat) :
    (destroy_recipe db uid pk).2.follows = db.follows := by
  unfold destroy_recipe
  repeat' split
  all_goals rfl

/-- Adding a favorite never touches the follow table. -/
theorem favorite_post_follows (db : DB) (uid pk : Nat) :
    (favorite_post db uid pk).2.follows = db.follows := by
  unfold favorite_post
  split_ifs <;> rfl

/-- Removing a favorite never touches the follow table. -/
theorem favorite_delete_follows (db : DB) (uid pk : Nat) :
    (favorite_delete db uid pk).2.follows = db.follows := by
  unfold favorite_delete
  split_ifs <;> rfl

/-- Adding a cart entry never touches the follow table. -/
theorem shopping_cart_post_follows (db : DB) (uid pk : Nat) :
    (shopping_cart_post db uid pk).2.follows = db.follows := by
  unfold shopping_cart_post
  split_ifs <;> rfl

/-- Removing a cart entry never touches the follow table. -/
theorem shopping_cart_delete_follows (db : DB) (uid pk : Nat) :
    (shopping_cart_delete db uid pk).2.follows = db.follows := by
  unfold shopping_cart_delete
  split_ifs <;> rfl

/-- Every public operation preserves the no-self-follow invariant. -/
theorem noSelfFollow_step {db db' : DB} (hs : Step db db')
    (h : noSelfFollow db = true) : noSelfFollow db' = true := by
  cases hs with
  | signup u => simpa [noSelfFollow] using h
  | createRecipe uid req =>
    unfold noSelfFollow at h ⊢
    rw [create_recipe_follows]
    exact h
  | updateRecipe uid pk req =>
    unfold noSelfFollow at h ⊢
    rw [update_recipe_follows]
    exact h
  | patchRecipe uid pk req =>
    unfold noSelfFollow at h ⊢
    rw [patch_recipe_follows]
    exact h
  | destroyRecipe uid pk =>
    unfold noSelfFollow at h ⊢
    rw [destroy_recipe_follows]
    exact h
  | favPost uid pk =>
    unfold noSelfFollow at h ⊢
    rw [favorite_post_follows]
    exact h
  | favDelete uid pk =>
    unfold noSelfFollow at h ⊢
    rw [favorite_delete_follows]
    exact h
  | cartPost uid pk =>
    unfold noSelfFollow at h ⊢
    rw [shopping_cart_post_follows]
    exact h
  | cartDelete uid pk =>
    unfold noSelfFollow at h ⊢
    rw [shopping_cart_delete_follows]
    exact h
  | subPost uid pk =>
    unfold noSelfFollow at h ⊢
    unfold subscribe_post
    by_cases h1 : db.users.any (fun x => x.id = pk)
    · rw [if_pos h1]
      by_cases h2 : uid = pk
      · rw [if_pos h2]
        exact h
      · rw [if_neg h2]
        by_cases h3 : db.follows.any (fun f => f.follower = uid ∧ f.author = pk)
        · rw [if_pos h3]
          exact h
        · rw [if_neg h3]
          show (db.follows ++ [(⟨uid, pk⟩ : Follow)]).all
            (fun f => f.follower != f.author) = true
          rw [List.all_append, h]
          simpa [bne_iff_ne] using h2
    · rw [if_neg h1]
      exact h
  | subDelete uid pk =>
    unfold noSelfFollow at h ⊢
    unfold subscribe_delete
    by_cases h1 : db.users.any (fun x => x.id = pk)
    · rw [if_pos h1]
      by_cases h3 : db.follows.any (fun f => f.follower = uid ∧ f.author = pk)
      · rw [if_pos h3]
        rw [List.all_eq_true] at h ⊢
        intro f hf
        exact h f (List.mem_of_mem_filter hf)
      · rw [if_neg h3]
        exact h
    · rw [if_neg h1]
      exact h

/-- Claim C5: subscribing a user to themself is always rejected with 400
and leaves the database unchanged, and in every state reachable by the
public operations no follow row has its follower equal to its followed
author. -/
theorem C5_no_self_subscribe :
    (∀ (db : DB) (u : Nat),
      db.users.any (fun x => x.id = u) = true →
      subscribe_post db u u = (400, db)) ∧
    (∀ db : DB, Reachable db → noSelfFollow db = true) := by
  constructor
  · intro db u hu
    unfold subscribe_post
    rw [if_pos hu, if_pos rfl]
  · intro db hr
    induction hr with
    | init us ts ins => rfl
    | step hr2 hs ih => exact noSelfFollow_step hs ih

/-- Witness for C5_no_self_subscribe: user 1 exists in `db0` and the
self-subscription attempt returns 400 unchanged; the fresh deployment
satisfies the invariant. -/
theorem C5_no_self_subscribe_witness :
    subscribe_post db0 1 1 = (400, db0) ∧
    noSelfFollow (initDB [] [] []) = true :=
  ⟨C5_no_self_subscribe.1 db0 1 (by decide),
   C5_no_self_subscribe.2 _ (Reachable.init [] [] [])⟩

/-- Claim C7: a PATCH, PUT or DELETE on a recipe by anyone other than its
author returns 403 and leaves the database (the recipe and all its
dependent rows) unchanged. -/
theorem C7_author_only (db : DB) (uid pk : Nat) (req : RecipeRequest)
    (r : Recipe) (hf : db.recipes.find? (fun x => x.id = pk) = some r)
    (hne : r.author ≠ uid) :
    patch_recipe db uid pk req = (403, db) ∧
    update_recipe db uid pk req = (403, db) ∧
    destroy_recipe db uid pk = (403, db) := by
  refine ⟨?_, ?_, ?_⟩
  · unfold patch_recipe
    simp only [hf]
    rw [if_pos hne]
  · unfold update_recipe
    simp only [hf]
    rw [if_pos hne]
  · unfold destroy_recipe
    simp only [hf]
    rw [if_pos hne]

/-- Witness for C7_author_only: user 2 cannot modify or delete recipe 1,
which belongs to user 1 in `dbV`. -/
theorem C7_author_only_witness :
    patch_recipe dbV 2 1 reqOk = (403, dbV) ∧
    update_recipe dbV 2 1 reqOk = (403, dbV) ∧
    destroy_recipe dbV 2 1 = (403, dbV) :=
  C7_author_only dbV 2 1 reqOk ⟨1, "r1", "t1", 10, 1, "img"⟩
    (by decide) (by decide)

/-- Claim C8: a create or PUT-update whose payload has an empty ingredient
list, an empty tag list, an ingredient amount below 1, or cooking_time
below 1 fails with 400 — `is_valid` produces a keyed error message — and
the database is unchanged; a payload satisfying every validation condition
is not rejected (201 on create, 200 on update by the author). -/
theorem C8_validation (db : DB) (uid pk : Nat) (req : RecipeRequest)
    (r : Recipe) :
    ((req.ingredients = [] ∨ req.tags = [] ∨
      (∃ e ∈ req.ingredients, e.amount < 1) ∨ req.cooking_time < 1) →
        (∃ err, run_validation db req = some err) ∧
        create_recipe db uid req = (400, db) ∧
        (db.recipes.find? (fun x => x.id = pk) = some r → r.author = uid →
          update_recipe db uid pk req = (400, db))) ∧
    (validReq db req →
      (create_recipe db uid req).1 = 201 ∧
      (db.recipes.find? (fun x => x.id = pk) = some r → r.author = uid →
        (update_recipe db uid pk req).1 = 200)) := by
  constructor
  · intro hbad
    have hrv : run_validation db req ≠ none := by
      intro hnone
      obtain ⟨v1, v2, v3, v4, v5, v6, v7, v8, v9⟩ :=
        (run_validation_none_iff db req).mp hnone
      rcases hbad with hh | hh | ⟨e, he, hlt⟩ | hh
      · exact v1 hh
      · exact v5 hh
      · exact absurd (v4 e he) (Nat.not_le.mpr hlt)
      · exact absurd v9 (Nat.not_le.mpr hh)
    cases hc : run_validation db req with
    | none => exact absurd hc hrv
    | some err =>
      refine ⟨⟨err, rfl⟩, ?_, ?_⟩
      · unfold create_recipe
        simp only [hc]
      · intro hf hauth
        unfold update_recipe
        simp only [hf]
        rw [if_neg (by simp [hauth])]
        by_cases hi : req.ingredients = []
        · rw [if_pos hi]
        · rw [if_neg hi]
          simp only [hc]
  · intro hv
    have hrv : run_validation db req = none :=
      (run_validation_none_iff db req).mpr hv
    constructor
    · unfold create_recipe
      simp only [hrv]
    · intro hf hauth
      unfold update_recipe
      simp only [hf]
      rw [if_neg (by simp [hauth]), if_neg hv.1]
      simp only [hrv]

/-- Witness for C8_validation: on `dbV`, the empty-ingredient payload is
rejected with 400 on create and PUT, while the fully valid payload is
accepted (201 on create, 200 on PUT by the author). -/
theorem C8_validation_witness :
    create_recipe dbV 1 reqEmptyIng = (400, dbV) ∧
    update_recipe dbV 1 1 reqEmptyIng = (400, dbV) ∧
    (create_recipe dbV 1 reqOk).1 = 201 ∧
    (update_recipe dbV 1 1 reqOk).1 = 200 := by
  have h1 := (C8_validation dbV 1 1 reqEmptyIng
    ⟨1, "r1", "t1", 10, 1, "img"⟩).1 (Or.inl rfl)
  have h2 := (C8_validation dbV 1 1 reqOk
    ⟨1, "r1", "t1", 10, 1, "img"⟩).2 (by decide)
  exact ⟨h1.2.1, h1.2.2 (by decide) rfl, h2.1, h2.2 (by decide) rfl⟩

/-- Claim C9: a payload that lists the same ingredient id twice, or the
same tag twice, is rejected with 400 by create and by PATCH (the database
unchanged), even when each individual entry is valid. -/
theorem C9_duplicate_entries (db : DB) (uid pk : Nat) (req : RecipeRequest)
    (r : Recipe)
    (hdup : ¬ (req.ingredients.map (fun e => e.id)).Nodup ∨
      ¬ req.tags.Nodup) :
    create_recipe db uid req = (400, db) ∧
    (db.recipes.find? (fun x => x.id = pk) = some r → r.author = uid →
      patch_recipe db uid pk req = (400, db)) := by
  have hrv : run_validation db req ≠ none := by
    intro hnone
    have hv := (run_validation_none_iff db req).mp hnone
    rcases hdup with hh | hh
    · exact hh hv.2.1
    · exact hh hv.2.2.2.2.2.1
  constructor
  · unfold create_recipe
    cases hc : run_validation db req with
    | none => exact absurd hc hrv
    | some err => simp only [hc]
  · intro hf hauth
    unfold patch_recipe
    simp only [hf]
    rw [if_neg (by simp [hauth])]
    by_cases h1 : req.ingredients = []
    · rw [if_pos h1]
    · rw [if_neg h1]
      by_cases h2 : (db.ingredients.filter (fun i =>
          (req.ingredients.map (fun e => e.id)).contains i.id)).length ≠
          req.ingredients.length
      · rw [if_pos h2]
      · rw [if_neg h2]
        by_cases h3 : req.tags = []
        · rw [if_pos h3]
        · rw [if_neg h3]
          by_cases h4 : req.tags.dedup.length ≠ req.tags.length
          · rw [if_pos h4]
          · rw [if_neg h4]
            cases hc : run_validation db req with
            | none => exact absurd hc hrv
            | some err => simp only [hc]

/-- Witness for C9_duplicate_entries: on `dbV`, the duplicate-ingredient
payload and the duplicate-tag payload are both rejected by create and by
PATCH. -/
theorem C9_duplicate_entries_witness :
    create_recipe dbV 1 reqDupIng = (400, dbV) ∧
    patch_recipe dbV 1 1 reqDupIng = (400, dbV) ∧
    create_recipe dbV 1 reqDupTag = (400, dbV) ∧
    patch_recipe dbV 1 1 reqDupTag = (400, dbV) := by
  have h1 := C9_duplicate_entries dbV 1 1 reqDupIng
    ⟨1, "r1", "t1", 10, 1, "img"⟩ (Or.inl (by decide))
  have h2 := C9_duplicate_entries dbV 1 1 reqDupTag
    ⟨1, "r1", "t1", 10, 1, "img"⟩ (Or.inr (by decide))
  exact ⟨h1.1, h1.2 (by decide) rfl, h2.1, h2.2 (by decide) rfl⟩

/-- After replacing the `pk`-keyed rows, filtering for key `pk` returns
exactly the replacement rows. -/
theorem filter_append_eq_new {α : Type} (old new : List α) (key : α → Nat)
    (pk : Nat) (hnew : ∀ x ∈ new, key x = pk) :
    ((old.filter (fun x => ¬ key x = pk)) ++ new).filter
      (fun x => key x = pk) = new := by
  rw [List.filter_append]
  have h1 : (old.filter (fun x => ¬ key x = pk)).filter
      (fun x => key x = pk) = [] := by
    apply List.filter_eq_nil_iff.mpr
    intro a ha
    have h2 := (List.mem_filter.mp ha).2
    simp at h2 ⊢
    exact h2
  have h2 : new.filter (fun x => key x = pk) = new := by
    apply List.filter_eq_self.mpr
    intro a ha
    simpa using hnew a ha
  rw [h1, h2, List.nil_append]

/-- After replacing the `pk`-keyed rows, the rows of every other key are
the old ones, untouched. -/
theorem filter_append_eq_old {α : Type} (old new : List α) (key : α → Nat)
    (pk : Nat) (hnew : ∀ x ∈ new, key x = pk) :
    ((old.filter (fun x => ¬ key x = pk)) ++ new).filter
      (fun x => ¬ key x = pk) = old.filter (fun x => ¬ key x = pk) := by
  rw [List.filter_append]
  have h1 : new.filter (fun x => ¬ key x = pk) = [] := by
    apply List.filter_eq_nil_iff.mpr
    intro a ha
    simp [hnew a ha]
  have h2 : (old.filter (fun x => ¬ key x = pk)).filter
      (fun x => ¬ key x = pk) = old.filter (fun x => ¬ key x = pk) := by
    apply List.filter_eq_self.mpr
    intro a ha
    exact (List.mem_filter.mp ha).2
  rw [h1, h2, List.append_nil]

/-- A PATCH either fails (status other than 200) or succeeds with exactly
the serializer's update applied. -/
theorem patch_recipe_spec (db : DB) (uid pk : Nat) (req : RecipeRequest) :
    (patch_recipe db uid pk req).1 ≠ 200 ∨
    (run_validation db req = none ∧
      patch_recipe db uid pk req = (200, apply_recipe_update db pk req)) := by
  unfold patch_recipe
  repeat' split
  all_goals first
    | (right; exact ⟨by assumption, rfl⟩)
    | (left; simp)

/-- Claim C10: when a PATCH succeeds (200), the updated recipe's tag-link
and ingredient-link rows are exactly those of the request — every
pre-existing link of that recipe is gone — while the links of every other
recipe are untouched. -/
theorem C10_update_replaces_links (db : DB) (uid pk : Nat)
    (req : RecipeRequest)
    (h : (patch_recipe db uid pk req).1 = 200) :
    (patch_recipe db uid pk req).2.recipeTags.filter
        (fun l => l.recipe = pk) =
      req.tags.map (fun t => ⟨pk, t⟩) ∧
    (patch_recipe db uid pk req).2.recipeIngredients.filter
        (fun l => l.recipe = pk) =
      req.ingredients.map (fun e => ⟨pk, e.id, e.amount⟩) ∧
    (patch_recipe db uid pk req).2.recipeTags.filter
        (fun l => ¬ l.recipe = pk) =
      db.recipeTags.filter (fun l => ¬ l.recipe = pk) ∧
    (patch_recipe db uid pk req).2.recipeIngredients.filter
        (fun l => ¬ l.recipe = pk) =
      db.recipeIngredients.filter (fun l => ¬ l.recipe = pk) := by
  rcases patch_recipe_spec db uid pk req with hne | ⟨hrv, heq⟩
  · exact absurd h hne
  · rw [heq]
    simp only [apply_recipe_update]
    refine ⟨?_, ?_, ?_, ?_⟩
    · exact filter_append_eq_new _ _ (fun l : RecipeTag => l.recipe) pk
        (by
          intro x hx
          rcases List.mem_map.mp hx with ⟨t, ht, rfl⟩
          rfl)
    · exact filter_append_eq_new _ _ (fun l : RecipeIngredient => l.recipe) pk
        (by
          intro x hx
          rcases List.mem_map.mp hx with ⟨e, he, rfl⟩
          rfl)
    · exact filter_append_eq_old _ _ (fun l : RecipeTag => l.recipe) pk
        (by
          intro x hx
          rcases List.mem_map.mp hx with ⟨t, ht, rfl⟩
          rfl)
    · exact filter_append_eq_old _ _ (fun l : RecipeIngredient => l.recipe) pk
        (by
          intro x hx
          rcases List.mem_map.mp hx with ⟨e, he, rfl⟩
          rfl)

/-- Witness for C10_update_replaces_links: user 1 successfully patches
recipe 1 in `dbV` with `reqOk`; the recipe's links afterwards are exactly
the request's tag 2 and ingredient 2, and no other recipe's links exist. -/
theorem C10_update_replaces_links_witness :
    (patch_recipe dbV 1 1 reqOk).2.recipeTags.filter
        (fun l => l.recipe = 1) = [⟨1, 2⟩] ∧
    (patch_recipe dbV 1 1 reqOk).2.recipeIngredients.filter
        (fun l => l.recipe = 1) = [⟨1, 2, 3⟩] ∧
    (patch_recipe dbV 1 1 reqOk).2.recipeTags.filter
        (fun l => ¬ l.recipe = 1) =
      dbV.recipeTags.filter (fun l => ¬ l.recipe = 1) ∧
    (patch_recipe dbV 1 1 reqOk).2.recipeIngredients.filter
        (fun l => ¬ l.recipe = 1) =
      dbV.recipeIngredients.filter (fun l => ¬ l.recipe = 1) :=
  C10_update_replaces_links dbV 1 1 reqOk (by decide)
